import Mathlib

/-!
Shallow embedding of `starlite/response_containers.py` from the litestar
repository: the response-container value objects `File`, `Redirect`,
`Stream` and `Template`, their construction-time validation
(`__post_init__`) and their `to_response` conversion methods.

Python dictionaries are modelled as association lists with
first-occurrence lookup and replace-or-append insertion, which matches
CPython's insertion-ordered dict semantics for the operations used here.
Python's dynamic values relevant to `Stream` are modelled by `PyVal`,
which records the presence of the dunder attributes consulted by the
`collections.abc` `isinstance` checks and whether the value is callable.
Methods are embedded in state-passing style: a method on a container
returns the (possibly updated) container together with its result, so
that frame properties are statable.
-/

set_option autoImplicit false

namespace Starlite

universe u

/-- First-occurrence lookup in an association list, modelling `dict.get`
(Python dicts have unique keys; on lists with duplicate keys the first
binding wins, matching an insertion-ordered dict's single binding). -/
def dictGet {α : Type u} : List (String × α) → String → Option α
  | [], _ => none
  | (k', v) :: rest, k => if k' = k then some v else dictGet rest k

/-- Insertion into an association list: replaces the value at the first
occurrence of the key, keeping its position, or appends a new binding.
This is CPython's dict update semantics for `{**d, k: v}`. -/
def dictInsert {α : Type u} : List (String × α) → String → α → List (String × α)
  | [], k, v => [(k, v)]
  | (k', v') :: rest, k, v =>
      if k' = k then (k, v) :: rest else (k', v') :: dictInsert rest k v

/-- `d.get(k, dflt)` on a string-valued mapping (used for the request scope). -/
def scopeGet (scope : List (String × String)) (k dflt : String) : String :=
  match dictGet scope k with
  | some v => v
  | none => dflt

/-- A Python runtime value as seen by `Stream`'s validation logic: the four
Boolean fields record whether the object's class provides the dunder methods
that the `collections.abc` structural `isinstance` checks look for
(`iter` / `next` / `aiter` / `anext`), and the `callableObj` constructor
marks the value as callable with the given zero-argument call result. -/
inductive PyVal : Type where
  | obj (hasIter hasNext hasAiter hasAnext : Bool)
  | callableObj (hasIter hasNext hasAiter hasAnext : Bool) (result : PyVal)
deriving DecidableEq, Repr

/-- Whether the value's class provides a dunder-iter method. -/
def PyVal.hasIterAttr : PyVal → Bool
  | .obj hi _ _ _ => hi
  | .callableObj hi _ _ _ _ => hi

/-- Whether the value's class provides a dunder-next method. -/
def PyVal.hasNextAttr : PyVal → Bool
  | .obj _ hn _ _ => hn
  | .callableObj _ hn _ _ _ => hn

/-- Whether the value's class provides a dunder-aiter method. -/
def PyVal.hasAiterAttr : PyVal → Bool
  | .obj _ _ ha _ => ha
  | .callableObj _ _ ha _ _ => ha

/-- Whether the value's class provides a dunder-anext method. -/
def PyVal.hasAnextAttr : PyVal → Bool
  | .obj _ _ _ hn => hn
  | .callableObj _ _ _ hn _ => hn

/-- `isinstance(v, collections.abc.Iterable)`: the structural subclass hook
checks for a dunder-iter method. -/
def isinstance_Iterable (v : PyVal) : Bool :=
  v.hasIterAttr

/-- `isinstance(v, collections.abc.Iterator)`: requires both dunder-iter and
dunder-next. -/
def isinstance_Iterator (v : PyVal) : Bool :=
  v.hasIterAttr && v.hasNextAttr

/-- `isinstance(v, collections.abc.AsyncIterable)`: requires dunder-aiter. -/
def isinstance_AsyncIterable (v : PyVal) : Bool :=
  v.hasAiterAttr

/-- `isinstance(v, collections.abc.AsyncIterator)`: requires both dunder-aiter
and dunder-anext. -/
def isinstance_AsyncIterator (v : PyVal) : Bool :=
  v.hasAiterAttr && v.hasAnextAttr

/-- `callable(v)`. -/
def py_callable : PyVal → Bool
  | .obj _ _ _ _ => false
  | .callableObj _ _ _ _ _ => true

/-- Calling a value with zero arguments: `some` result when callable,
`none` (a TypeError) otherwise. -/
def py_call : PyVal → Option PyVal
  | .obj _ _ _ _ => none
  | .callableObj _ _ _ _ r => some r

/-- `isinstance(v, (Iterable, Iterator, AsyncIterable, AsyncIterator))`, the
check performed twice by `Stream.__post_init__`. -/
def streamCheckAll (v : PyVal) : Bool :=
  isinstance_Iterable v || isinstance_Iterator v
    || isinstance_AsyncIterable v || isinstance_AsyncIterator v

/-- Exceptions raised by this module: `ImproperlyConfiguredException` with its
message, and the TypeError that calling a non-callable would raise. -/
inductive Err : Type where
  | improperlyConfigured (msg : String)
  | typeError
deriving DecidableEq, Repr

/-- Modelled from the spec: the in-flight request handle
(`starlite.connection.Request`, not part of the excerpt). Only its identity
and its `scope` mapping (from which a CSRF token string is read under a
fixed key, absent key defaulting to empty string) are relevant here. -/
structure Request : Type where
  reqId : Nat
  scope : List (String × String)
deriving DecidableEq, Repr

/-- Modelled from the spec: the `Starlite` application handle
(`starlite.app.Starlite`, not part of the excerpt). Only the presence or
absence (falsy) of its `template_engine` attribute is relevant here. -/
structure App : Type where
  template_engine : Option Nat
deriving DecidableEq, Repr

/-- An attribute slot of a duck-typed object: absent (`getattr` default
`None`), or present with a flag saying whether the attribute is callable. -/
inductive Attr : Type where
  | absent
  | present (isCallableAttr : Bool)
deriving DecidableEq, Repr

/-- `callable(getattr(obj, name, None))` for an attribute slot. -/
def attrCallable : Attr → Bool
  | .absent => false
  | .present c => c

/-- A file-system handle as `File.__post_init__` inspects it: just its
`info` and `open` attribute slots. -/
structure FileSystem : Type where
  info : Attr
  open_ : Attr
deriving DecidableEq, Repr

/-- An opaque `os.stat_result` snapshot. -/
structure StatResult : Type where
  statData : Nat
deriving DecidableEq, Repr

/-- The `File` response container: all dataclass fields. -/
structure File : Type where
  path : String
  background : Option Nat
  headers : List (String × String)
  cookies : List Nat
  media_type : Option String
  encoding : String
  filename : Option String
  stat_result : Option StatResult
  chunk_size : Nat
  content_disposition_type : String
  etag : Option String
  file_system : FileSystem
  file_info : Option Nat
deriving DecidableEq, Repr

/-- Modelled from the spec: `starlite.response.FileResponse` (not part of the
excerpt) as a plain record of the keyword arguments `File.to_response`
passes to its constructor. -/
structure FileResponse : Type where
  background : Option Nat
  chunk_size : Nat
  content_disposition_type : String
  encoding : String
  etag : Option String
  file_info : Option Nat
  file_system : FileSystem
  filename : Option String
  headers : List (String × String)
  media_type : Option String
  path : String
  stat_result : Option StatResult
  status_code : Nat
deriving DecidableEq, Repr

/-- `File.__post_init__`, parameterised by the ambient filesystem stat
function `stat` (modelling `Path(self.path).stat()`). Returns the outcome
together with a flag recording whether a stat call was made: the capability
check comes first and raises before any stat resolution; a stat is performed
exactly when no `stat_result` was supplied (an `os.stat_result` is a
non-empty struct sequence, hence always truthy, so `not self.stat_result`
holds exactly when it is `None`). -/
def File.post_init (stat : String → StatResult) (f : File) :
    Except Err File × Bool :=
  if !(attrCallable f.file_system.info && attrCallable f.file_system.open_) then
    (.error (.improperlyConfigured "file_system must adhere to the FileSystemProtocol type"),
      false)
  else
    match f.stat_result with
    | none => (.ok { f with stat_result := some (stat f.path) }, true)
    | some _ => (.ok f, false)

/-- `File.to_response`: packages the container fields with the supplied
headers, media type and status code into a `FileResponse`. State-passing:
the first component is the container after the call. -/
def File.to_response (f : File) (headers : List (String × String))
    (media_type : Option String) (status_code : Nat) (app : App)
    (request : Request) : File × FileResponse :=
  (f,
    { background := f.background
      chunk_size := f.chunk_size
      content_disposition_type := f.content_disposition_type
      encoding := f.encoding
      etag := f.etag
      file_info := f.file_info
      file_system := f.file_system
      filename := f.filename
      headers := headers
      media_type := media_type
      path := f.path
      stat_result := f.stat_result
      status_code := status_code })

/-- The `Redirect` response container. -/
structure Redirect : Type where
  path : String
  background : Option Nat
  headers : List (String × String)
  cookies : List Nat
  media_type : Option String
  encoding : String
deriving DecidableEq, Repr

/-- Modelled from the spec: `starlite.response.RedirectResponse` (not part of
the excerpt) as a plain record of the keyword arguments
`Redirect.to_response` passes to its constructor; per the spec it carries the
target path as the `Location` target and the given status code, with no
runtime status-code check in this excerpt. -/
structure RedirectResponse : Type where
  background : Option Nat
  encoding : String
  headers : List (String × String)
  status_code : Nat
  url : String
deriving DecidableEq, Repr

/-- `Redirect.to_response`: builds a `RedirectResponse` from the container's
path and the given headers and status code; the `media_type`, `app` and
`request` arguments are accepted but unused. State-passing: the first
component is the container after the call. -/
def Redirect.to_response (r : Redirect) (headers : List (String × String))
    (media_type : String) (status_code : Nat) (app : App)
    (request : Request) : Redirect × RedirectResponse :=
  (r,
    { background := r.background
      encoding := r.encoding
      headers := headers
      status_code := status_code
      url := r.path })

/-- The `Stream` response container; `iterator` is the dynamically typed
value supplied by the user. -/
structure Stream : Type where
  iterator : PyVal
  background : Option Nat
  headers : List (String × String)
  cookies : List Nat
  media_type : Option String
  encoding : String
deriving DecidableEq, Repr

/-- Modelled from the spec: `starlite.response.StreamingResponse` (not part
of the excerpt) as a plain record of the keyword arguments
`Stream.to_response` passes to its constructor. -/
structure StreamingResponse : Type where
  background : Option Nat
  content : PyVal
  encoding : String
  headers : List (String × String)
  media_type : String
  status_code : Nat
deriving DecidableEq, Repr

/-- The first statement of `Stream.__post_init__`: if the stored value is not
an instance of any of `Iterable`, `Iterator`, `AsyncIterable`,
`AsyncIterator` but is callable, replace it with the result of calling it
once (Python's `not` binds tighter than `and`). The second component counts
how many times the supplied value was invoked. -/
def streamNormalize (v : PyVal) : PyVal × Nat :=
  if (!streamCheckAll v) && py_callable v then
    match py_call v with
    | some r => (r, 1)
    | none => (v, 0)
  else (v, 0)

/-- `Stream.__post_init__`: normalize the stored value, then raise
`ImproperlyConfiguredException` if the (possibly replaced) value is still not
an instance of any of the four abstract classes. The second component of a
successful result counts how many times the originally supplied callable was
invoked during construction. -/
def Stream.post_init (s : Stream) : Except Err (Stream × Nat) :=
  if !streamCheckAll (streamNormalize s.iterator).1 then
    .error (.improperlyConfigured
      "iterator must be either an iterator or a callable that returns an iterator")
  else
    .ok ({ s with iterator := (streamNormalize s.iterator).1 },
      (streamNormalize s.iterator).2)

/-- Dataclass construction of `Stream`: populate the fields, then run
`__post_init__`. -/
def Stream.construct (iterator : PyVal) (background : Option Nat)
    (headers : List (String × String)) (cookies : List Nat)
    (media_type : Option String) (encoding : String) :
    Except Err (Stream × Nat) :=
  Stream.post_init
    { iterator := iterator, background := background, headers := headers,
      cookies := cookies, media_type := media_type, encoding := encoding }

/-- The `content` argument computed inside `Stream.to_response`:
`self.iterator if isinstance(self.iterator, (Iterable, AsyncIterable)) else
self.iterator()`. The second component counts invocations of the stored
value made by this expression; calling a non-callable raises a TypeError. -/
def Stream.content_of (s : Stream) : Except Err (PyVal × Nat) :=
  if isinstance_Iterable s.iterator || isinstance_AsyncIterable s.iterator then
    .ok (s.iterator, 0)
  else
    match py_call s.iterator with
    | some r => .ok (r, 1)
    | none => .error .typeError

/-- `Stream.to_response`: builds a `StreamingResponse` around the computed
content. State-passing: the first component is the container after the call;
the successful result carries the response together with the number of
invocations of the stored value made during conversion. -/
def Stream.to_response (s : Stream) (headers : List (String × String))
    (media_type : String) (status_code : Nat) (app : App)
    (request : Request) : Stream × Except Err (StreamingResponse × Nat) :=
  (s,
    match s.content_of with
    | .ok (c, n) =>
        .ok
          ({ background := s.background
             content := c
             encoding := s.encoding
             headers := headers
             media_type := media_type
             status_code := status_code }, n)
    | .error e => .error e)

/-- A value stored in a template context: a string, the request object, or
some other opaque value. -/
inductive TplValue : Type where
  | str (s : String)
  | req (r : Request)
  | other (n : Nat)
deriving DecidableEq, Repr

/-- The `Template` response container. -/
structure Template : Type where
  name : String
  context : List (String × TplValue)
  background : Option Nat
  headers : List (String × String)
  cookies : List Nat
  media_type : Option String
  encoding : String
deriving DecidableEq, Repr

/-- Modelled from the spec: `starlite.response.TemplateResponse` (not part of
the excerpt) as a plain record of the keyword arguments
`Template.to_response` passes to its constructor. -/
structure TemplateResponse : Type where
  background : Option Nat
  context : List (String × TplValue)
  encoding : String
  headers : List (String × String)
  status_code : Nat
  template_engine : Nat
  template_name : String
  media_type : String
deriving DecidableEq, Repr

/-- The CSRF hidden-input markup f-string from
`Template.create_template_context`. -/
def csrfInputMarkup (token : String) : String :=
  "<input type=\"hidden\" name=\"_csrf_token\" value=\"" ++ token ++ "\" />"

/-- `Template.create_template_context`: reads the CSRF token from the request
scope under `_csrf_token` (default empty string) and returns the stored
context merged with the `request` and `csrf_input` entries, which override
any identically named stored entries. -/
def Template.create_template_context (t : Template) (request : Request) :
    List (String × TplValue) :=
  dictInsert
    (dictInsert t.context "request" (.req request))
    "csrf_input"
    (.str (csrfInputMarkup (scopeGet request.scope "_csrf_token" "")))

/-- `Template.to_response`: raises `ImproperlyConfiguredException` when the
application's template engine is absent (falsy), otherwise builds a
`TemplateResponse` over the created template context. State-passing: the
first component is the container after the call. -/
def Template.to_response (t : Template) (headers : List (String × String))
    (media_type : String) (status_code : Nat) (app : App)
    (request : Request) : Template × Except Err TemplateResponse :=
  (t,
    match app.template_engine with
    | none => .error (.improperlyConfigured "Template engine is not configured")
    | some engine =>
        .ok
          { background := t.background
            context := t.create_template_context request
            encoding := t.encoding
            headers := headers
            status_code := status_code
            template_engine := engine
            template_name := t.name
            media_type := media_type })

/-! ## Helper lemmas -/

theorem dictGet_dictInsert_self {α : Type u} (d : List (String × α)) (k : String) (v : α) :
    dictGet (dictInsert d k v) k = some v := by
  induction d with
  | nil => simp [dictInsert, dictGet]
  | cons p rest ih =>
      obtain ⟨k', v'⟩ := p
      by_cases h : k' = k
      · simp [dictInsert, dictGet, h]
      · simp [dictInsert, dictGet, h, ih]

theorem dictGet_dictInsert_ne {α : Type u} (d : List (String × α)) (k k' : String) (v : α)
    (h : k' ≠ k) : dictGet (dictInsert d k' v) k = dictGet d k := by
  induction d with
  | nil => simp [dictInsert, dictGet, h]
  | cons p rest ih =>
      obtain ⟨k0, v0⟩ := p
      by_cases h0 : k0 = k'
      · subst h0
        simp [dictInsert, dictGet, h]
      · by_cases h1 : k0 = k
        · simp [dictInsert, dictGet, h0, h1, Ne.symm h]
        · simp [dictInsert, dictGet, h0, h1, ih]

theorem isSome_dictGet_dictInsert {α : Type u} (d : List (String × α)) (k k' : String) (v : α)
    (h : (dictGet d k).isSome) : (dictGet (dictInsert d k' v) k).isSome := by
  by_cases hk : k' = k
  · subst hk
    rw [dictGet_dictInsert_self]
    rfl
  · rw [dictGet_dictInsert_ne _ _ _ _ hk]
    exact h

/-- In this model every `Iterator` is an `Iterable` and every `AsyncIterator`
is an `AsyncIterable` (the `collections.abc` subclass relations), so the
four-way `isinstance` check of `__post_init__` collapses to the two-way
check of `to_response`. -/
theorem streamCheckAll_eq (v : PyVal) :
    streamCheckAll v = (isinstance_Iterable v || isinstance_AsyncIterable v) := by
  cases v with
  | obj hi hn ha han =>
      simp only [streamCheckAll, isinstance_Iterable, isinstance_Iterator,
        isinstance_AsyncIterable, isinstance_AsyncIterator, PyVal.hasIterAttr,
        PyVal.hasNextAttr, PyVal.hasAiterAttr, PyVal.hasAnextAttr]
      cases hi <;> cases hn <;> cases ha <;> cases han <;> rfl
  | callableObj hi hn ha han r =>
      simp only [streamCheckAll, isinstance_Iterable, isinstance_Iterator,
        isinstance_AsyncIterable, isinstance_AsyncIterator, PyVal.hasIterAttr,
        PyVal.hasNextAttr, PyVal.hasAiterAttr, PyVal.hasAnextAttr]
      cases hi <;> cases hn <;> cases ha <;> cases han <;> rfl

theorem py_callable_of_py_call (v r : PyVal) (h : py_call v = some r) :
    py_callable v = true := by
  cases v with
  | obj hi hn ha han => simp [py_call] at h
  | callableObj hi hn ha han r0 => rfl

/-- Successful `Stream.__post_init__` yields a container whose iterator
passes the four-way `isinstance` check. -/
theorem post_init_ok_checkAll (s s' : Stream) (n : Nat)
    (h : Stream.post_init s = .ok (s', n)) :
    streamCheckAll s'.iterator = true := by
  unfold Stream.post_init at h
  split at h
  · exact absurd h (by simp)
  · rename_i hcond
    have hs' : s' = { s with iterator := (streamNormalize s.iterator).1 } := by
      injection h with h1
      exact (congrArg Prod.fst h1).symm
    rw [hs']
    simpa using hcond

/-! ## Concrete fixtures used by witnesses and counterexamples -/

/-- A concrete request fixture carrying a CSRF token in its scope. -/
def reqA : Request := { reqId := 7, scope := [("_csrf_token", "tok123")] }

/-- A concrete request fixture with an empty scope. -/
def reqEmpty : Request := { reqId := 0, scope := [] }

/-- A concrete application fixture without a template engine. -/
def appNone : App := { template_engine := none }

/-- A concrete template fixture with one stored context key. -/
def tplA : Template :=
  { name := "index.html", context := [("user", .str "bob")], background := none,
    headers := [], cookies := [], media_type := none, encoding := "utf-8" }

/-! ## Claim theorems -/

/-- Claim C1: for every `Template` container and request, the context built
by `Template.create_template_context` (and carried into the
`TemplateResponse` by `Template.to_response`) contains every key of the
stored context plus the keys `request` and `csrf_input`, where `request`
maps to the request object and `csrf_input` to the hidden-input markup
string holding the token read from the request scope under `_csrf_token`,
or the empty string when that key is absent. -/
theorem template_context_contains_request_and_csrf (t : Template) (request : Request) :
    (∀ k, (dictGet t.context k).isSome →
      (dictGet (t.create_template_context request) k).isSome)
    ∧ dictGet (t.create_template_context request) "request" = some (.req request)
    ∧ dictGet (t.create_template_context request) "csrf_input"
        = some (.str ("<input type=\"hidden\" name=\"_csrf_token\" value=\""
            ++ scopeGet request.scope "_csrf_token" "" ++ "\" />"))
    ∧ ∀ hd m sc engine,
        ((t.to_response hd m sc { template_engine := some engine } request).2).map
            (fun resp => resp.context)
          = .ok (t.create_template_context request) := by
  refine ⟨?_, ?_, ?_, ?_⟩
  · intro k hk
    exact isSome_dictGet_dictInsert _ _ _ _ (isSome_dictGet_dictInsert _ _ _ _ hk)
  · simp only [Template.create_template_context]
    rw [dictGet_dictInsert_ne _ _ _ _ (by decide), dictGet_dictInsert_self]
  · simp only [Template.create_template_context]
    rw [dictGet_dictInsert_self]
    rfl
  · intro hd m sc engine
    simp [Template.to_response, Except.map]

/-- Witness for C1 at a concrete template, request and stored context key. -/
theorem template_context_contains_request_and_csrf_witness :
    (dictGet tplA.context "user").isSome
    ∧ (dictGet (tplA.create_template_context reqA) "user").isSome
    ∧ dictGet (tplA.create_template_context reqA) "request" = some (.req reqA)
    ∧ dictGet (tplA.create_template_context reqA) "csrf_input"
        = some (.str "<input type=\"hidden\" name=\"_csrf_token\" value=\"tok123\" />") := by
  refine ⟨by decide, ?_, ?_, ?_⟩
  · exact (template_context_contains_request_and_csrf tplA reqA).1 "user" (by decide)
  · exact (template_context_contains_request_and_csrf tplA reqA).2.1
  · have h := (template_context_contains_request_and_csrf tplA reqA).2.2.1
    rw [h]
    rfl

/-- Claim C2: `Template.to_response` raises `ImproperlyConfiguredException`
when the application's template engine is not configured, and when an engine
is configured it does not raise and returns a `TemplateResponse`. -/
theorem template_to_response_engine_check (t : Template) (hd : List (String × String))
    (m : String) (sc : Nat) (app : App) (request : Request) :
    (app.template_engine = none →
      (t.to_response hd m sc app request).2
        = .error (.improperlyConfigured "Template engine is not configured"))
    ∧ ∀ e, app.template_engine = some e →
        (t.to_response hd m sc app request).2
          = .ok
              { background := t.background
                context := t.create_template_context request
                encoding := t.encoding
                headers := hd
                status_code := sc
                template_engine := e
                template_name := t.name
                media_type := m } := by
  constructor
  · intro h
    simp [Template.to_response, h]
  · intro e h
    simp [Template.to_response, h]

/-- Witness for C2 at a concrete template, with and without an engine. -/
theorem template_to_response_engine_check_witness :
    (tplA.to_response [] "text/html" 200 { template_engine := none } reqA).2
      = .error (.improperlyConfigured "Template engine is not configured")
    ∧ (tplA.to_response [] "text/html" 200 { template_engine := some 1 } reqA).2
      = .ok
          { background := none
            context := tplA.create_template_context reqA
            encoding := "utf-8"
            headers := []
            status_code := 200
            template_engine := 1
            template_name := "index.html"
            media_type := "text/html" } := by
  constructor
  · exact (template_to_response_engine_check tplA [] "text/html" 200 ⟨none⟩ reqA).1 rfl
  · exact (template_to_response_engine_check tplA [] "text/html" 200 ⟨some 1⟩ reqA).2 1 rfl

/-- Claim C3: for every zero-argument callable value that is not itself
iterable and that returns an iterable, `Stream` construction succeeds, the
callable is invoked exactly once during construction, and the stored
iterator field afterwards equals the iterable returned by that single
invocation. -/
theorem stream_construct_callable_once (v r : PyVal) (bg : Option Nat)
    (hd : List (String × String)) (ck : List Nat) (mt : Option String) (enc : String)
    (hni : streamCheckAll v = false) (hcall : py_call v = some r)
    (hr : streamCheckAll r = true) :
    Stream.construct v bg hd ck mt enc
      = .ok
          ({ iterator := r, background := bg, headers := hd, cookies := ck,
             media_type := mt, encoding := enc }, 1) := by
  have hc : py_callable v = true := py_callable_of_py_call v r hcall
  simp [Stream.construct, Stream.post_init, streamNormalize, hni, hc, hcall, hr]

/-- Witness for C3: a non-iterable callable returning a sync iterable. -/
theorem stream_construct_callable_once_witness :
    streamCheckAll (.callableObj false false false false (.obj true false false false)) = false
    ∧ py_call (.callableObj false false false false (.obj true false false false))
        = some (.obj true false false false)
    ∧ streamCheckAll (.obj true false false false) = true
    ∧ Stream.construct (.callableObj false false false false (.obj true false false false))
        none [] [] none "utf-8"
      = .ok
          ({ iterator := .obj true false false false, background := none, headers := [],
             cookies := [], media_type := none, encoding := "utf-8" }, 1) := by
  refine ⟨by decide, by decide, by decide, ?_⟩
  exact stream_construct_callable_once _ _ none [] [] none "utf-8"
    (by decide) (by decide) (by decide)

/-- Counterexample to claim C4 as stated: a value that is iterable and also
callable, whose invocation would return a non-iterable. Its single
invocation does not yield an iterable, yet `Stream` construction does not
raise: the value is accepted as-is (with zero invocations) because the
iterability test comes first. -/
theorem stream_construct_iterable_callable_counterexample :
    py_callable (.callableObj true false false false (.obj false false false false)) = true
    ∧ py_call (.callableObj true false false false (.obj false false false false))
        = some (.obj false false false false)
    ∧ streamCheckAll (.obj false false false false) = false
    ∧ Stream.construct (.callableObj true false false false (.obj false false false false))
        none [] [] none "utf-8"
      = .ok
          ({ iterator := .callableObj true false false false (.obj false false false false),
             background := none, headers := [], cookies := [], media_type := none,
             encoding := "utf-8" }, 0) :=
  ⟨rfl, rfl, rfl, rfl⟩

/-- Claim C4 (amended): for every value that is neither iterable (sync or
async, iterator or iterable) nor callable, and for every non-iterable
callable whose single invocation does not yield an iterable, `Stream`
construction raises an `ImproperlyConfiguredException`. -/
theorem stream_construct_invalid_raises (v : PyVal) (bg : Option Nat)
    (hd : List (String × String)) (ck : List Nat) (mt : Option String) (enc : String)
    (hni : streamCheckAll v = false)
    (h : py_callable v = false ∨ ∀ r, py_call v = some r → streamCheckAll r = false) :
    Stream.construct v bg hd ck mt enc
      = .error (.improperlyConfigured
          "iterator must be either an iterator or a callable that returns an iterator") := by
  cases v with
  | obj hi hn ha han =>
      simp [Stream.construct, Stream.post_init, streamNormalize, hni, py_callable]
  | callableObj hi hn ha han r =>
      rcases h with h | h
      · simp [py_callable] at h
      · have hr := h r rfl
        simp [Stream.construct, Stream.post_init, streamNormalize, hni,
          py_callable, py_call, hr]

/-- Witness for the amended C4: a plain non-iterable, non-callable object,
and a non-iterable callable returning a non-iterable. -/
theorem stream_construct_invalid_raises_witness :
    streamCheckAll (.obj false false false false) = false
    ∧ py_callable (.obj false false false false) = false
    ∧ Stream.construct (.obj false false false false) none [] [] none "utf-8"
        = .error (.improperlyConfigured
            "iterator must be either an iterator or a callable that returns an iterator")
    ∧ streamCheckAll (.callableObj false false false false (.obj false false false false)) = false
    ∧ Stream.construct (.callableObj false false false false (.obj false false false false))
        none [] [] none "utf-8"
        = .error (.improperlyConfigured
            "iterator must be either an iterator or a callable that returns an iterator") := by
  refine ⟨by decide, by decide, ?_, by decide, ?_⟩
  · exact stream_construct_invalid_raises _ none [] [] none "utf-8"
      (by decide) (Or.inl (by decide))
  · exact stream_construct_invalid_raises _ none [] [] none "utf-8"
      (by decide) (Or.inr (fun r hr => by
        injection hr with hr
        rw [hr.symm]
        rfl))

/-- A concrete valid `File` fixture with no supplied stat snapshot. -/
def fileA : File :=
  { path := "a.txt", background := none, headers := [], cookies := [],
    media_type := none, encoding := "utf-8", filename := none,
    stat_result := none, chunk_size := 1024,
    content_disposition_type := "attachment", etag := none,
    file_system := { info := .present true, open_ := .present true },
    file_info := none }

/-- A concrete valid `File` fixture with a supplied stat snapshot. -/
def fileB : File := { fileA with stat_result := some { statData := 7 } }

/-- A concrete `File` fixture whose file system lacks a callable `info`. -/
def fileBadFS : File := { fileA with file_system := { info := .absent, open_ := .present true } }

/-- Claim C5: for every file_system object on which the attribute `info` or
the attribute `open` is missing or not callable, `File` construction raises
an `ImproperlyConfiguredException`, before any stat resolution is attempted
(the second component, recording whether a stat call was made, is false). -/
theorem file_post_init_invalid_fs (stat : String → StatResult) (f : File)
    (h : attrCallable f.file_system.info = false
      ∨ attrCallable f.file_system.open_ = false) :
    File.post_init stat f
      = (.error (.improperlyConfigured
          "file_system must adhere to the FileSystemProtocol type"), false) := by
  have hb : (attrCallable f.file_system.info && attrCallable f.file_system.open_) = false := by
    rcases h with h | h <;> simp [h]
  simp [File.post_init, hb]

/-- Witness for C5: a file system whose `info` attribute is absent. -/
theorem file_post_init_invalid_fs_witness :
    attrCallable fileBadFS.file_system.info = false
    ∧ File.post_init (fun _ => { statData := 42 }) fileBadFS
      = (.error (.improperlyConfigured
          "file_system must adhere to the FileSystemProtocol type"), false) := by
  refine ⟨by decide, ?_⟩
  exact file_post_init_invalid_fs (fun _ => { statData := 42 }) fileBadFS
    (Or.inl (by decide))

/-- Claim C6: for every file_system handle exposing callable `info` and
`open` capabilities, `File` construction succeeds; a stat call on `path` is
made and stored if and only if no `stat_result` was supplied, and a supplied
`stat_result` is kept unchanged with no stat call made. -/
theorem file_post_init_valid_fs (stat : String → StatResult) (f : File)
    (hi : attrCallable f.file_system.info = true)
    (ho : attrCallable f.file_system.open_ = true) :
    (f.stat_result = none →
      File.post_init stat f = (.ok { f with stat_result := some (stat f.path) }, true))
    ∧ ∀ s, f.stat_result = some s → File.post_init stat f = (.ok f, false) := by
  constructor
  · intro h
    simp [File.post_init, hi, ho, h]
  · intro s h
    simp [File.post_init, hi, ho, h]

/-- Witness for C6: a valid file system with and without a supplied stat. -/
theorem file_post_init_valid_fs_witness :
    File.post_init (fun _ => { statData := 42 }) fileA
      = (.ok { fileA with stat_result := some { statData := 42 } }, true)
    ∧ File.post_init (fun _ => { statData := 42 }) fileB = (.ok fileB, false) := by
  constructor
  · exact (file_post_init_valid_fs (fun _ => { statData := 42 }) fileA
      (by decide) (by decide)).1 rfl
  · exact (file_post_init_valid_fs (fun _ => { statData := 42 }) fileB
      (by decide) (by decide)).2 { statData := 7 } rfl

/-- Claim C7: `Redirect.to_response` returns a redirect-response whose target
URL equals the container's path and whose status code equals the given
status code, independently of the `media_type` argument; in particular
`Redirect(path="/login")` converted with status 302 yields target `/login`
and status 302. -/
theorem redirect_to_response_fields (r : Redirect) (hd : List (String × String))
    (m m' : String) (sc : Nat) (app : App) (request : Request) :
    ((r.to_response hd m sc app request).2.url = r.path
      ∧ (r.to_response hd m sc app request).2.status_code = sc
      ∧ r.to_response hd m sc app request = r.to_response hd m' sc app request)
    ∧ ((Redirect.mk "/login" none [] [] none "utf-8").to_response hd m 302 app request).2.url
        = "/login"
    ∧ ((Redirect.mk "/login" none [] [] none "utf-8").to_response hd m 302 app request).2.status_code
        = 302 :=
  ⟨⟨rfl, rfl, rfl⟩, rfl, rfl⟩

/-- Counterexample to claim C8 as stated: 200 is not a redirect-class status
code, yet `Redirect.to_response` returns — without raising — a
redirect-response carrying status 200. No runtime status-code check exists
on the conversion path. -/
theorem redirect_status_not_enforced_counterexample :
    (200 : Nat) ∉ ([301, 302, 303, 307, 308] : List Nat)
    ∧ ((Redirect.mk "/x" none [] [] none "utf-8").to_response [] "text/html" 200 appNone reqEmpty).2
      = { background := none, encoding := "utf-8", headers := [], status_code := 200,
          url := "/x" } :=
  ⟨by decide, rfl⟩

/-- Claim C8 (amended): the `{301, 302, 303, 307, 308}` restriction on
`status_code` is only a static typing contract; at conversion time no check
is performed, and for every status code outside the set
`Redirect.to_response` still returns, without error, a redirect-response
carrying that status code and the container's path. -/
theorem redirect_status_passthrough (r : Redirect) (hd : List (String × String))
    (m : String) (sc : Nat) (app : App) (request : Request)
    (hsc : sc ∉ ([301, 302, 303, 307, 308] : List Nat)) :
    (r.to_response hd m sc app request).2.status_code = sc
    ∧ (r.to_response hd m sc app request).2.url = r.path :=
  ⟨rfl, rfl⟩

/-- Witness for the amended C8 at status code 200. -/
theorem redirect_status_passthrough_witness :
    ((Redirect.mk "/x" none [] [] none "utf-8").to_response [] "text/html" 200 appNone reqEmpty).2.status_code
      = 200
    ∧ ((Redirect.mk "/x" none [] [] none "utf-8").to_response [] "text/html" 200 appNone reqEmpty).2.url
      = "/x" :=
  redirect_status_passthrough (Redirect.mk "/x" none [] [] none "utf-8") []
    "text/html" 200 appNone reqEmpty (by decide)

/-- Claim C9: for every container (`File`, `Redirect`, `Stream`, `Template`)
and every input, `to_response` leaves every field of the container
unchanged: in the state-passing embedding the container returned alongside
the response is the original one, for all argument values and whether or not
the conversion succeeds. -/
theorem to_response_preserves_container (f : File) (r : Redirect) (s : Stream)
    (t : Template) (hd : List (String × String)) (mo : Option String)
    (m : String) (sc : Nat) (app : App) (request : Request) :
    (f.to_response hd mo sc app request).1 = f
    ∧ (r.to_response hd m sc app request).1 = r
    ∧ (s.to_response hd m sc app request).1 = s
    ∧ (t.to_response hd m sc app request).1 = t :=
  ⟨rfl, rfl, rfl, rfl⟩

/-- A concrete `Stream` fixture built from a non-iterable callable. -/
def streamA : Stream :=
  { iterator := .callableObj false false false false (.obj true false false false),
    background := none, headers := [], cookies := [], media_type := none,
    encoding := "utf-8" }

/-- The container `Stream.__post_init__` produces from `streamA`. -/
def streamA' : Stream := { streamA with iterator := .obj true false false false }

/-- Claim C10: for every successfully constructed `Stream` container, the
fallback branch of `Stream.to_response` that would re-invoke the stored
value is unreachable: after `__post_init__` the iterator passes the
`(Iterable, AsyncIterable)` isinstance check (every `Iterator` is an
`Iterable` and every `AsyncIterator` an `AsyncIterable`), so the content is
the stored iterator itself with zero further invocations, and `to_response`
returns it with an invocation count of zero. -/
theorem stream_to_response_fallback_unreachable (s s' : Stream) (n : Nat)
    (h : Stream.post_init s = .ok (s', n)) :
    (isinstance_Iterable s'.iterator || isinstance_AsyncIterable s'.iterator) = true
    ∧ Stream.content_of s' = .ok (s'.iterator, 0)
    ∧ ∀ hd m sc app request,
        (s'.to_response hd m sc app request).2
          = .ok
              ({ background := s'.background, content := s'.iterator,
                 encoding := s'.encoding, headers := hd, media_type := m,
                 status_code := sc }, 0) := by
  have hall : streamCheckAll s'.iterator = true := post_init_ok_checkAll s s' n h
  rw [streamCheckAll_eq] at hall
  have hcontent : Stream.content_of s' = .ok (s'.iterator, 0) := by
    simp [Stream.content_of, hall]
  refine ⟨hall, hcontent, ?_⟩
  intro hd m sc app request
  simp [Stream.to_response, hcontent]

/-- Witness for C10: the concrete construction outcome of `streamA`. -/
theorem stream_to_response_fallback_unreachable_witness :
    (isinstance_Iterable streamA'.iterator || isinstance_AsyncIterable streamA'.iterator) = true
    ∧ Stream.content_of streamA' = .ok (streamA'.iterator, 0)
    ∧ ∀ hd m sc app request,
        (streamA'.to_response hd m sc app request).2
          = .ok
              ({ background := streamA'.background, content := streamA'.iterator,
                 encoding := streamA'.encoding, headers := hd, media_type := m,
                 status_code := sc }, 0) :=
  stream_to_response_fallback_unreachable streamA streamA' 1 rfl

end Starlite
